import Mathlib

/-!
Shallow embedding of the resolution engine of the `app status` command:
`appStatusOpts.askProject` and `appStatusOpts.askAppEnvName`, together with
`DisableColorBasedOnEnvVar` from the terminal color package.

The external collaborators (the configuration store, the stack describer and
the interactive chooser) are modelled as oracle fields of a `Collab` record.
Every collaborator call made by the engine is recorded in an event trace, so
that statements about "how many probes / listings / chooser invocations
happen" become statements about the trace.
-/

/-- The `svcEnv` struct: a (service name, environment name) candidate pair. -/
structure SvcEnv where
  svcName : String
  envName : String
deriving DecidableEq, Repr

/-- Modelled from the spec: the method `svcEnv.String` producing the canonical
display key of a candidate pair is not among the provided source files. The
spec's scenarios show the key as the service and environment names joined by a
slash, for example "api/test". -/
def SvcEnv.display (p : SvcEnv) : String := p.svcName ++ "/" ++ p.envName

/-- Outcome of the interactive chooser (`prompt.SelectOne`): either a selected
string, or user cancellation, or some other failure carrying its cause. -/
inductive ChooserErr where
  | aborted
  | failed (cause : String)
deriving DecidableEq, Repr

/-- Outcome of the deployment probe (`appDescriber.GetServiceArn`): success, a
stack-not-exists condition (recognized by `describe.IsStackNotExistsErr`), or
any other error carrying its cause. -/
inductive ProbeOutcome where
  | ok
  | stackNotExists
  | err (cause : String)
deriving DecidableEq, Repr

/-- True exactly on the hard-failure outcome of a probe. -/
def ProbeOutcome.isErr : ProbeOutcome → Bool
  | .err _ => true
  | _ => false

/-- The error taxonomy of the resolution engine, one constructor per distinct
`return fmt.Errorf(...)` site (wrapped causes are carried structurally, the
way Go's error wrapping preserves the wrapped error). -/
inductive CliErr where
  | listProjectsErr (cause : String)
  | noProjectFound
  | selectProjectErr (e : ChooserErr)
  | listAppsErr (project cause : String)
  | noAppsFound (project : String)
  | listEnvsErr (project cause : String)
  | noEnvsFound (project : String)
  | initDescriberErr (cause : String)
  | probeFailed (svc env cause : String)
  | noDeployedApps (project : String)
  | selectAppEnvErr (project : String) (e : ChooserErr)
deriving DecidableEq, Repr

/-- The collaborators of the engine, as pure oracles. `initDescriber env svc`
returns `some cause` when `initAppDescriber` fails; `getServiceArn env svc` is
the deployment probe for the pair, pure in the (environment, service) the
describer was initialized with. -/
structure Collab where
  listApplications : Except String (List String)
  listServices : Except String (List String)
  listEnvironments : Except String (List String)
  initDescriber : String → String → Option String
  getServiceArn : String → String → ProbeOutcome
  selectOne : List String → Except ChooserErr String

/-- One recorded collaborator interaction of the engine. -/
inductive Event where
  | callListApplications
  | callListServices
  | callListEnvironments
  | callInitDescriber (env svc : String)
  | callProbe (env svc : String)
  | callChooser (choices : List String)
  | logAutoSelect (key : String)
deriving DecidableEq, Repr

/-- True exactly on catalog listing calls. -/
def Event.isListing : Event → Bool
  | .callListApplications => true
  | .callListServices => true
  | .callListEnvironments => true
  | _ => false

/-- True exactly on deployment probe calls. -/
def Event.isProbe : Event → Bool
  | .callProbe _ _ => true
  | _ => false

/-- True exactly on interactive chooser invocations. -/
def Event.isChooser : Event → Bool
  | .callChooser _ => true
  | _ => false

/-- Go map assignment `m[k] = v`: overwrite the entry for `k` if present,
otherwise add a new entry. -/
def mapInsert (m : List (String × SvcEnv)) (k : String) (v : SvcEnv) :
    List (String × SvcEnv) :=
  if k ∈ m.map Prod.fst then
    m.map fun kv => if kv.1 = k then (k, v) else kv
  else m ++ [(k, v)]

/-- Go map read `m[k]`: the stored value, or the zero value
`svcEnv\x7b\x7d` (both fields empty) when the key is absent. -/
def mapGet (m : List (String × SvcEnv)) (k : String) : SvcEnv :=
  match m.find? (fun kv => kv.1 == k) with
  | some kv => kv.2
  | none => ⟨"", ""⟩

/-- Lines 160 to 169 of the command file: the service-candidate list. If a
service name was supplied it is the singleton list; otherwise
`retrieveAllAppNames` lists the project's services (`store.ListServices`),
failing on a listing error or an empty result. -/
def getAppNames (c : Collab) (project svcName : String) :
    Except CliErr (List String) × List Event :=
  if svcName = "" then
    ((match c.listServices with
      | .error cause => .error (.listAppsErr project cause)
      | .ok ns => if ns.isEmpty then .error (.noAppsFound project) else .ok ns),
     [.callListServices])
  else (.ok [svcName], [])

/-- Lines 171 to 180 of the command file: the environment-candidate list,
analogous to `getAppNames` via `store.ListEnvironments`. -/
def getEnvNames (c : Collab) (project envName : String) :
    Except CliErr (List String) × List Event :=
  if envName = "" then
    ((match c.listEnvironments with
      | .error cause => .error (.listEnvsErr project cause)
      | .ok ns => if ns.isEmpty then .error (.noEnvsFound project) else .ok ns),
     [.callListEnvironments])
  else (.ok [envName], [])

/-- The service-major, environment-minor cross product of the two candidate
lists, in listing order (the nested loop at lines 184 to 185). -/
def crossPairs : List String → List String → List (String × String)
  | [], _ => []
  | a :: as, envs => envs.map (fun e => (a, e)) ++ crossPairs as envs

/-- Lines 184 to 204 of the command file: probe every candidate pair in order.
For each pair: initialize the describer (an init failure is returned as-is),
probe via `GetServiceArn`; a stack-not-exists outcome drops the pair and
continues, any other probe error aborts with `probeFailed` naming the service
and environment and wrapping the cause, and a success appends the display key
to `appEnvNames` and stores the pair in the `appEnvs` map. -/
def probeAll (c : Collab) :
    List (String × String) → List (String × SvcEnv) → List String →
    Except CliErr (List (String × SvcEnv) × List String) × List Event
  | [], m, names => (.ok (m, names), [])
  | (svc, env) :: rest, m, names =>
    match c.initDescriber env svc with
    | some cause => (.error (.initDescriberErr cause), [.callInitDescriber env svc])
    | none =>
      match c.getServiceArn env svc with
      | .err cause =>
        (.error (.probeFailed svc env cause),
         [.callInitDescriber env svc, .callProbe env svc])
      | .stackNotExists =>
        ((probeAll c rest m names).1,
         .callInitDescriber env svc :: .callProbe env svc ::
           (probeAll c rest m names).2)
      | .ok =>
        ((probeAll c rest (mapInsert m (SvcEnv.display ⟨svc, env⟩) ⟨svc, env⟩)
            (names ++ [SvcEnv.display ⟨svc, env⟩])).1,
         .callInitDescriber env svc :: .callProbe env svc ::
           (probeAll c rest (mapInsert m (SvcEnv.display ⟨svc, env⟩) ⟨svc, env⟩)
             (names ++ [SvcEnv.display ⟨svc, env⟩])).2)

/-- Lines 205 to 229 of the command file: after probing, fail when no deployed
pair was found; auto-select (with the informational notice) when exactly one
was found; otherwise invoke the chooser on the ordered key list and read the
selected key back through the map. -/
def postProbe (c : Collab) (project : String) (appEnvs : List (String × SvcEnv))
    (appEnvNames : List String) (tr : List Event) :
    Except CliErr (String × String) × List Event :=
  if appEnvNames.length = 0 then (.error (.noDeployedApps project), tr)
  else if appEnvNames.length = 1 then
    ((.ok ((mapGet appEnvs (appEnvNames.headD "")).svcName,
           (mapGet appEnvs (appEnvNames.headD "")).envName)),
     tr ++ [.logAutoSelect (appEnvNames.headD "")])
  else
    match c.selectOne appEnvNames with
    | .error e => (.error (.selectAppEnvErr project e), tr ++ [.callChooser appEnvNames])
    | .ok k =>
      ((.ok ((mapGet appEnvs k).svcName, (mapGet appEnvs k).envName)),
       tr ++ [.callChooser appEnvNames])

/-- The whole of `askAppEnvName` (lines 158 to 230): source the candidate
lists, probe the cross product, then dispatch on the number of deployed pairs.
Returns the resolved (service, environment) pair and the event trace. -/
def askAppEnvName (c : Collab) (project svcName envName : String) :
    Except CliErr (String × String) × List Event :=
  match getAppNames c project svcName with
  | (.error e, tr) => (.error e, tr)
  | (.ok appNames, tr1) =>
    match getEnvNames c project envName with
    | (.error e, tr2) => (.error e, tr1 ++ tr2)
    | (.ok envNames, tr2) =>
      match probeAll c (crossPairs appNames envNames) [] [] with
      | (.error e, tr3) => (.error e, tr1 ++ tr2 ++ tr3)
      | (.ok (appEnvs, appEnvNames), tr3) =>
        postProbe c project appEnvs appEnvNames (tr1 ++ tr2 ++ tr3)

/-- The whole of `askProject` (lines 122 to 144): a supplied project name is
trusted as-is; otherwise the project list is retrieved
(`store.ListApplications` via `retrieveProjects`), an empty list fails, and
otherwise the chooser selects one, its error being wrapped. -/
def askProject (c : Collab) (appName : String) :
    Except CliErr String × List Event :=
  if appName = "" then
    match c.listApplications with
    | .error cause => (.error (.listProjectsErr cause), [.callListApplications])
    | .ok projNames =>
      if projNames.isEmpty then (.error .noProjectFound, [.callListApplications])
      else
        match c.selectOne projNames with
        | .error e =>
          (.error (.selectProjectErr e), [.callListApplications, .callChooser projNames])
        | .ok proj => (.ok proj, [.callListApplications, .callChooser projNames])
  else (.ok appName, [])

/-- The fully resolved identifiers after `Ask` succeeds. -/
structure ResolvedVars where
  appName : String
  svcName : String
  envName : String
deriving DecidableEq, Repr

/-- The `Ask` method (lines 92 to 97): project resolution followed by
service/environment resolution, concatenating the traces. -/
def ask (c : Collab) (appName svcName envName : String) :
    Except CliErr ResolvedVars × List Event :=
  match askProject c appName with
  | (.error e, tr) => (.error e, tr)
  | (.ok proj, tr1) =>
    match askAppEnvName c proj svcName envName with
    | (.error e, tr2) => (.error e, tr1 ++ tr2)
    | (.ok sv, tr2) => (.ok ⟨proj, sv.1, sv.2⟩, tr1 ++ tr2)

/-- The two global color toggles touched by `DisableColorBasedOnEnvVar`:
`core.DisableColor` from the survey library and `color.NoColor` from the
fatih color library. -/
structure ColorState where
  coreDisableColor : Bool
  colorNoColor : Bool
deriving DecidableEq, Repr

/-- Go's `strings.ToLower` on the values this code compares against: each
character mapped through its lowercase conversion. -/
def strToLower (s : String) : String := ⟨s.data.map Char.toLower⟩

/-- The function `DisableColorBasedOnEnvVar` of the color package: `env` is
the result of looking up the COLOR environment variable (`none` when unset).
When unset, `core.DisableColor` follows the current `color.NoColor`; a value
lowercasing to "false" disables color everywhere, one lowercasing to "true"
enables it everywhere, and anything else changes nothing. -/
def disableColorBasedOnEnvVar (env : Option String) (s : ColorState) : ColorState :=
  match env with
  | none => { s with coreDisableColor := s.colorNoColor }
  | some value =>
    if strToLower value = "false" then { coreDisableColor := true, colorNoColor := true }
    else if strToLower value = "true" then { coreDisableColor := false, colorNoColor := false }
    else s

/-- The pairs of the cross product retained by the probe filter: those whose
probe reports success. This is the spec's "filtered set". -/
def deployedOf (c : Collab) : List (String × String) → List SvcEnv
  | [] => []
  | q :: rest =>
    if c.getServiceArn q.2 q.1 = .ok then ⟨q.1, q.2⟩ :: deployedOf c rest
    else deployedOf c rest

/-- The map built by inserting each deployed pair under its display key, in
order. -/
def buildMap : List (String × SvcEnv) → List SvcEnv → List (String × SvcEnv)
  | m, [] => m
  | m, p :: rest => buildMap (mapInsert m p.display p) rest

/-- The trace produced by a probing pass that never aborts: one describer
initialization and one probe per candidate pair, in order. -/
def probeEvents : List (String × String) → List Event
  | [] => []
  | q :: rest =>
    Event.callInitDescriber q.2 q.1 :: Event.callProbe q.2 q.1 :: probeEvents rest

/-- A candidate pair on which probing cannot abort: its describer initializes
and its probe is not a hard error. -/
abbrev cleanPair (c : Collab) (q : String × String) : Prop :=
  c.initDescriber q.2 q.1 = none ∧ (c.getServiceArn q.2 q.1).isErr = false

theorem getAppNames_filter_chooser (c : Collab) (p s : String) :
    (getAppNames c p s).2.filter Event.isChooser = [] := by
  unfold getAppNames
  split <;> rfl

theorem getAppNames_filter_probe (c : Collab) (p s : String) :
    (getAppNames c p s).2.filter Event.isProbe = [] := by
  unfold getAppNames
  split <;> rfl

theorem getEnvNames_filter_chooser (c : Collab) (p e : String) :
    (getEnvNames c p e).2.filter Event.isChooser = [] := by
  unfold getEnvNames
  split <;> rfl

theorem getEnvNames_filter_probe (c : Collab) (p e : String) :
    (getEnvNames c p e).2.filter Event.isProbe = [] := by
  unfold getEnvNames
  split <;> rfl

theorem probeEvents_filter_chooser (l : List (String × String)) :
    (probeEvents l).filter Event.isChooser = [] := by
  induction l with
  | nil => rfl
  | cons q rest ih => simp [probeEvents, List.filter_cons, Event.isChooser, ih]

theorem probeEvents_filter_probe (l : List (String × String)) :
    (probeEvents l).filter Event.isProbe
      = l.map fun q => Event.callProbe q.2 q.1 := by
  induction l with
  | nil => rfl
  | cons q rest ih => simp [probeEvents, List.filter_cons, Event.isProbe, ih]

theorem probeAll_clean (c : Collab) (pairs : List (String × String)) :
    ∀ (m : List (String × SvcEnv)) (names : List String),
      (∀ q ∈ pairs, cleanPair c q) →
      probeAll c pairs m names =
        (Except.ok (buildMap m (deployedOf c pairs),
            names ++ (deployedOf c pairs).map SvcEnv.display),
         probeEvents pairs) := by
  induction pairs with
  | nil => intro m names _; simp [probeAll, deployedOf, buildMap, probeEvents]
  | cons q rest ih =>
    intro m names h
    obtain ⟨svc, env⟩ := q
    obtain ⟨hinit, herr⟩ := h (svc, env) (by simp)
    have htail : ∀ q ∈ rest, cleanPair c q := fun q hq => h q (by simp [hq])
    simp only [probeAll, hinit]
    cases harn : c.getServiceArn env svc with
    | err cause => rw [harn] at herr; simp [ProbeOutcome.isErr] at herr
    | stackNotExists =>
      rw [ih m names htail]
      simp [deployedOf, probeEvents, harn]
    | ok =>
      rw [ih (mapInsert m (SvcEnv.display ⟨svc, env⟩) ⟨svc, env⟩)
            (names ++ [SvcEnv.display ⟨svc, env⟩]) htail]
      simp [deployedOf, probeEvents, buildMap, harn]

theorem probeAll_err (c : Collab) (l1 : List (String × String)) :
    ∀ (l2 : List (String × String)) (s e cause : String)
      (m : List (String × SvcEnv)) (names : List String),
      (∀ q ∈ l1, cleanPair c q) →
      c.initDescriber e s = none →
      c.getServiceArn e s = .err cause →
      probeAll c (l1 ++ (s, e) :: l2) m names =
        (Except.error (.probeFailed s e cause),
         probeEvents l1 ++ [.callInitDescriber e s, .callProbe e s]) := by
  induction l1 with
  | nil =>
    intro l2 s e cause m names _ hinit herr
    simp only [List.nil_append, probeAll, hinit, herr, probeEvents]
  | cons q rest ih =>
    intro l2 s e cause m names h hinit herr
    obtain ⟨svc, env⟩ := q
    obtain ⟨hqinit, hqerr⟩ := h (svc, env) (by simp)
    have htail : ∀ q ∈ rest, cleanPair c q := fun q hq => h q (by simp [hq])
    simp only [List.cons_append, probeAll, hqinit]
    cases harn : c.getServiceArn env svc with
    | err cause2 => rw [harn] at hqerr; simp [ProbeOutcome.isErr] at hqerr
    | stackNotExists =>
      simp only [List.append_eq]
      rw [ih l2 s e cause m names htail hinit herr]
      simp [probeEvents]
    | ok =>
      simp only [List.append_eq]
      rw [ih l2 s e cause
            (mapInsert m (SvcEnv.display ⟨svc, env⟩) ⟨svc, env⟩)
            (names ++ [SvcEnv.display ⟨svc, env⟩]) htail hinit herr]
      simp [probeEvents]

/-- The invariant relating the `appEnvs` map and the `appEnvNames` key list as
they are built: keys are pairwise distinct, every entry's key is the display
key of its pair, and the keys of the map are exactly the names that occur in
the list. -/
def candInv (m : List (String × SvcEnv)) (names : List String) : Prop :=
  (m.map Prod.fst).Nodup ∧
  (∀ kv ∈ m, kv.1 = kv.2.display) ∧
  (∀ k ∈ names, k ∈ m.map Prod.fst) ∧
  (∀ k ∈ m.map Prod.fst, k ∈ names)

theorem replaceEntry_keys (m : List (String × SvcEnv)) (k : String) (v : SvcEnv) :
    ((m.map fun kv => if kv.1 = k then (k, v) else kv).map Prod.fst)
      = m.map Prod.fst := by
  induction m with
  | nil => rfl
  | cons kv rest ih =>
    by_cases h : kv.1 = k <;> simp [h, ih]

theorem mapInsert_keys (m : List (String × SvcEnv)) (k : String) (v : SvcEnv) :
    (mapInsert m k v).map Prod.fst =
      if k ∈ m.map Prod.fst then m.map Prod.fst else m.map Prod.fst ++ [k] := by
  by_cases hk : k ∈ m.map Prod.fst
  · rw [if_pos hk]
    unfold mapInsert
    rw [if_pos hk, replaceEntry_keys]
  · rw [if_neg hk]
    unfold mapInsert
    rw [if_neg hk]
    simp

theorem candInv_nil : candInv [] [] := by
  refine ⟨List.nodup_nil, ?_, ?_, ?_⟩ <;> simp

theorem candInv_insert (m : List (String × SvcEnv)) (names : List String)
    (p : SvcEnv) (h : candInv m names) :
    candInv (mapInsert m p.display p) (names ++ [p.display]) := by
  obtain ⟨hnd, hdk, hns, hsn⟩ := h
  by_cases hk : p.display ∈ m.map Prod.fst
  · refine ⟨?_, ?_, ?_, ?_⟩
    · rw [mapInsert_keys, if_pos hk]; exact hnd
    · intro kv hkv
      unfold mapInsert at hkv
      rw [if_pos hk] at hkv
      obtain ⟨kv0, hkv0, heq⟩ := List.mem_map.mp hkv
      by_cases h0 : kv0.1 = p.display
      · rw [if_pos h0] at heq; rw [← heq]
      · rw [if_neg h0] at heq; rw [← heq]; exact hdk kv0 hkv0
    · intro k hkmem
      rw [mapInsert_keys, if_pos hk]
      rcases List.mem_append.mp hkmem with h1 | h1
      · exact hns k h1
      · simp at h1; rw [h1]; exact hk
    · intro k hkmem
      rw [mapInsert_keys, if_pos hk] at hkmem
      exact List.mem_append.mpr (Or.inl (hsn k hkmem))
  · refine ⟨?_, ?_, ?_, ?_⟩
    · rw [mapInsert_keys, if_neg hk]
      simp [List.Nodup.append, List.nodup_append, hnd, hk]
    · intro kv hkv
      unfold mapInsert at hkv
      rw [if_neg hk] at hkv
      rcases List.mem_append.mp hkv with h1 | h1
      · exact hdk kv h1
      · simp at h1; rw [h1]
    · intro k hkmem
      rw [mapInsert_keys, if_neg hk]
      rcases List.mem_append.mp hkmem with h1 | h1
      · exact List.mem_append.mpr (Or.inl (hns k h1))
      · simp at h1; rw [h1]; exact List.mem_append.mpr (Or.inr (by simp))
    · intro k hkmem
      rw [mapInsert_keys, if_neg hk] at hkmem
      rcases List.mem_append.mp hkmem with h1 | h1
      · exact List.mem_append.mpr (Or.inl (hsn k h1))
      · simp at h1; rw [h1]; exact List.mem_append.mpr (Or.inr (by simp))

theorem probeAll_ok_inv (c : Collab) (pairs : List (String × String)) :
    ∀ (m : List (String × SvcEnv)) (names : List String)
      (m2 : List (String × SvcEnv)) (names2 : List String) (tr : List Event),
      candInv m names →
      probeAll c pairs m names = (.ok (m2, names2), tr) →
      candInv m2 names2 := by
  induction pairs with
  | nil =>
    intro m names m2 names2 tr hinv heq
    simp only [probeAll, Prod.mk.injEq, Except.ok.injEq] at heq
    obtain ⟨⟨h2, h3⟩, _⟩ := heq
    rw [← h2, ← h3]
    exact hinv
  | cons q rest ih =>
    intro m names m2 names2 tr hinv heq
    obtain ⟨svc, env⟩ := q
    simp only [probeAll] at heq
    cases hi : c.initDescriber env svc with
    | some cause => rw [hi] at heq; simp at heq
    | none =>
      rw [hi] at heq
      cases harn : c.getServiceArn env svc with
      | err cause => rw [harn] at heq; simp at heq
      | stackNotExists =>
        rw [harn] at heq
        simp only [Prod.mk.injEq] at heq
        obtain ⟨h1, _⟩ := heq
        rcases hrec : probeAll c rest m names with ⟨r1, tr1⟩
        rw [hrec] at h1
        exact ih m names m2 names2 tr1 hinv
          (by rw [hrec, show r1 = Except.ok (m2, names2) from h1])
      | ok =>
        rw [harn] at heq
        simp only [Prod.mk.injEq] at heq
        obtain ⟨h1, _⟩ := heq
        rcases hrec : probeAll c rest
            (mapInsert m (SvcEnv.display ⟨svc, env⟩) ⟨svc, env⟩)
            (names ++ [SvcEnv.display ⟨svc, env⟩]) with ⟨r1, tr1⟩
        rw [hrec] at h1
        exact ih (mapInsert m (SvcEnv.display ⟨svc, env⟩) ⟨svc, env⟩)
          (names ++ [SvcEnv.display ⟨svc, env⟩]) m2 names2 tr1
          (candInv_insert m names ⟨svc, env⟩ hinv)
          (by rw [hrec, show r1 = Except.ok (m2, names2) from h1])

theorem filter_key_length (m : List (String × SvcEnv)) (k : String)
    (hnd : (m.map Prod.fst).Nodup) (hk : k ∈ m.map Prod.fst) :
    (m.filter fun kv => kv.1 == k).length = 1 := by
  induction m with
  | nil => simp at hk
  | cons kv rest ih =>
    rw [List.map_cons, List.nodup_cons] at hnd
    obtain ⟨hnotin, hnd2⟩ := hnd
    by_cases h : kv.1 = k
    · have hrest : (rest.filter fun kv => kv.1 == k) = [] := by
        rw [List.filter_eq_nil_iff]
        intro kv2 hkv2
        simp only [beq_iff_eq]
        intro hc
        exact hnotin (by rw [h, ← hc]; exact List.mem_map_of_mem Prod.fst hkv2)
      simp [List.filter_cons, h, hrest]
    · have hk2 : k ∈ rest.map Prod.fst := by
        rcases List.mem_cons.mp hk with h1 | h1
        · exact absurd h1.symm h
        · exact h1
      simp [List.filter_cons, h, ih hnd2 hk2]

theorem values_nodup (m : List (String × SvcEnv))
    (hnd : (m.map Prod.fst).Nodup) (hdk : ∀ kv ∈ m, kv.1 = kv.2.display) :
    (m.map Prod.snd).Nodup := by
  induction m with
  | nil => simp
  | cons kv rest ih =>
    rw [List.map_cons, List.nodup_cons] at hnd ⊢
    obtain ⟨hnotin, hnd2⟩ := hnd
    refine ⟨?_, ih hnd2 (fun kv2 h => hdk kv2 (List.mem_cons_of_mem kv h))⟩
    intro hmem
    obtain ⟨kv2, hkv2, hvv⟩ := List.mem_map.mp hmem
    apply hnotin
    have h1 : kv.1 = kv.2.display := hdk kv (List.mem_cons_self kv rest)
    have h2 : kv2.1 = kv2.2.display := hdk kv2 (List.mem_cons_of_mem kv hkv2)
    have : kv2.1 = kv.1 := by rw [h1, h2, hvv]
    rw [← this]
    exact List.mem_map_of_mem Prod.fst hkv2

theorem mapGet_absent (m : List (String × SvcEnv)) (k : String)
    (h : ∀ kv ∈ m, kv.1 ≠ k) : mapGet m k = ⟨"", ""⟩ := by
  unfold mapGet
  have : m.find? (fun kv => kv.1 == k) = none := by
    rw [List.find?_eq_none]
    intro kv hkv
    simp only [beq_iff_eq]
    exact h kv hkv
  rw [this]

theorem mapGet_single (k : String) (v : SvcEnv) : mapGet [(k, v)] k = v := by
  unfold mapGet
  simp [List.find?]

theorem postProbe_zero (c : Collab) (project : String)
    (m : List (String × SvcEnv)) (tr : List Event) :
    postProbe c project m [] tr = (.error (.noDeployedApps project), tr) := by
  simp [postProbe]

theorem postProbe_one (c : Collab) (project : String)
    (m : List (String × SvcEnv)) (k : String) (tr : List Event) :
    postProbe c project m [k] tr =
      (.ok ((mapGet m k).svcName, (mapGet m k).envName),
       tr ++ [.logAutoSelect k]) := by
  simp [postProbe]

theorem postProbe_many (c : Collab) (project : String)
    (m : List (String × SvcEnv)) (names : List String) (tr : List Event)
    (h : 1 < names.length) :
    postProbe c project m names tr =
      match c.selectOne names with
      | .error e => (.error (.selectAppEnvErr project e), tr ++ [.callChooser names])
      | .ok k =>
        ((.ok ((mapGet m k).svcName, (mapGet m k).envName)),
         tr ++ [.callChooser names]) := by
  unfold postProbe
  rw [if_neg (by omega), if_neg (by omega)]

theorem askAppEnvName_clean (c : Collab) (project svcName envName : String)
    (apps envs : List String) (t1 t2 : List Event)
    (h1 : getAppNames c project svcName = (.ok apps, t1))
    (h2 : getEnvNames c project envName = (.ok envs, t2))
    (hclean : ∀ q ∈ crossPairs apps envs, cleanPair c q) :
    askAppEnvName c project svcName envName =
      postProbe c project (buildMap [] (deployedOf c (crossPairs apps envs)))
        ((deployedOf c (crossPairs apps envs)).map SvcEnv.display)
        (t1 ++ t2 ++ probeEvents (crossPairs apps envs)) := by
  unfold askAppEnvName
  simp only [h1, h2]
  rw [probeAll_clean c (crossPairs apps envs) [] [] hclean]
  simp

/-- C1: for every catalog response and probe outcome where the filtered set of
deployed (service, environment) pairs has exactly one member, the resolution
procedure returns that pair without invoking the Interactive Chooser, and
emits an informational notice identifying the auto-selected pair. -/
theorem askAppEnvName_single_deployed_auto_selects
    (c : Collab) (project svcName envName : String)
    (apps envs : List String) (t1 t2 : List Event) (p : SvcEnv)
    (h1 : getAppNames c project svcName = (.ok apps, t1))
    (h2 : getEnvNames c project envName = (.ok envs, t2))
    (hclean : ∀ q ∈ crossPairs apps envs, cleanPair c q)
    (hone : deployedOf c (crossPairs apps envs) = [p]) :
    (askAppEnvName c project svcName envName).1 = .ok (p.svcName, p.envName) ∧
    (askAppEnvName c project svcName envName).2.filter Event.isChooser = [] ∧
    Event.logAutoSelect p.display ∈ (askAppEnvName c project svcName envName).2 := by
  rw [askAppEnvName_clean c project svcName envName apps envs t1 t2 h1 h2 hclean, hone]
  have hmap : buildMap [] [p] = [(p.display, p)] := by
    simp [buildMap, mapInsert]
  rw [show ([p].map SvcEnv.display) = [p.display] from rfl, hmap, postProbe_one]
  have ht1 : t1.filter Event.isChooser = [] := by
    have h := getAppNames_filter_chooser c project svcName
    rw [h1] at h; simpa using h
  have ht2 : t2.filter Event.isChooser = [] := by
    have h := getEnvNames_filter_chooser c project envName
    rw [h2] at h; simpa using h
  refine ⟨by simp [mapGet_single], ?_, by simp⟩
  simp [List.filter_append, ht1, ht2, probeEvents_filter_chooser, Event.isChooser]

/-- C2: if any single probe of the cross product (taken in order) returns a
failure other than "not deployed", resolution aborts immediately with a
`probeFailed` error wrapping the underlying cause and naming the service and
environment being probed, and no further probe is issued after it. -/
theorem askAppEnvName_probe_error_aborts
    (c : Collab) (project svcName envName : String)
    (apps envs : List String) (t1 t2 : List Event)
    (l1 l2 : List (String × String)) (s e cause : String)
    (h1 : getAppNames c project svcName = (.ok apps, t1))
    (h2 : getEnvNames c project envName = (.ok envs, t2))
    (hsplit : crossPairs apps envs = l1 ++ (s, e) :: l2)
    (hclean : ∀ q ∈ l1, cleanPair c q)
    (hinit : c.initDescriber e s = none)
    (herr : c.getServiceArn e s = .err cause) :
    (askAppEnvName c project svcName envName).1
        = .error (.probeFailed s e cause) ∧
    (askAppEnvName c project svcName envName).2.filter Event.isProbe
        = (l1.map fun q => Event.callProbe q.2 q.1) ++ [Event.callProbe e s] := by
  have ht1 : t1.filter Event.isProbe = [] := by
    have h := getAppNames_filter_probe c project svcName
    rw [h1] at h; simpa using h
  have ht2 : t2.filter Event.isProbe = [] := by
    have h := getEnvNames_filter_probe c project envName
    rw [h2] at h; simpa using h
  unfold askAppEnvName
  simp only [h1, h2, hsplit]
  rw [probeAll_err c l1 l2 s e cause [] [] hclean hinit herr]
  constructor
  · simp
  · simp [List.filter_append, ht1, ht2, probeEvents_filter_probe,
      List.filter_cons, Event.isProbe]

/-- C3: when the cross product yields more than one deployed pair, the
Interactive Chooser is invoked exactly once, with exactly one choice per
deployed pair, the choices being the display keys of the deployed pairs in
service-major, environment-minor catalog listing order. -/
theorem askAppEnvName_many_invokes_chooser_once
    (c : Collab) (project svcName envName : String)
    (apps envs : List String) (t1 t2 : List Event)
    (h1 : getAppNames c project svcName = (.ok apps, t1))
    (h2 : getEnvNames c project envName = (.ok envs, t2))
    (hclean : ∀ q ∈ crossPairs apps envs, cleanPair c q)
    (hmany : 1 < (deployedOf c (crossPairs apps envs)).length) :
    (askAppEnvName c project svcName envName).2.filter Event.isChooser
      = [Event.callChooser
          ((deployedOf c (crossPairs apps envs)).map SvcEnv.display)] ∧
    ((deployedOf c (crossPairs apps envs)).map SvcEnv.display).length
      = (deployedOf c (crossPairs apps envs)).length := by
  have ht1 : t1.filter Event.isChooser = [] := by
    have h := getAppNames_filter_chooser c project svcName
    rw [h1] at h; simpa using h
  have ht2 : t2.filter Event.isChooser = [] := by
    have h := getEnvNames_filter_chooser c project envName
    rw [h2] at h; simpa using h
  rw [askAppEnvName_clean c project svcName envName apps envs t1 t2 h1 h2 hclean]
  rw [postProbe_many c project _ _ _ (by simpa using hmany)]
  refine ⟨?_, by simp⟩
  cases c.selectOne ((deployedOf c (crossPairs apps envs)).map SvcEnv.display) with
  | error e =>
    simp [List.filter_append, ht1, ht2, probeEvents_filter_chooser,
      List.filter_cons, Event.isChooser]
  | ok k =>
    simp [List.filter_append, ht1, ht2, probeEvents_filter_chooser,
      List.filter_cons, Event.isChooser]

/-- C4: when probing retains zero deployed pairs, resolution fails with the
no-deployed-pairs error naming the project, and the Interactive Chooser is
never invoked. -/
theorem askAppEnvName_none_deployed_fails
    (c : Collab) (project svcName envName : String)
    (apps envs : List String) (t1 t2 : List Event)
    (h1 : getAppNames c project svcName = (.ok apps, t1))
    (h2 : getEnvNames c project envName = (.ok envs, t2))
    (hclean : ∀ q ∈ crossPairs apps envs, cleanPair c q)
    (hzero : deployedOf c (crossPairs apps envs) = []) :
    (askAppEnvName c project svcName envName).1
        = .error (.noDeployedApps project) ∧
    (askAppEnvName c project svcName envName).2.filter Event.isChooser = [] := by
  have ht1 : t1.filter Event.isChooser = [] := by
    have h := getAppNames_filter_chooser c project svcName
    rw [h1] at h; simpa using h
  have ht2 : t2.filter Event.isChooser = [] := by
    have h := getEnvNames_filter_chooser c project envName
    rw [h2] at h; simpa using h
  rw [askAppEnvName_clean c project svcName envName apps envs t1 t2 h1 h2 hclean, hzero]
  simp only [List.map_nil, buildMap, postProbe_zero]
  refine ⟨trivial, ?_⟩
  simp [List.filter_append, ht1, ht2, probeEvents_filter_chooser]

/-- C5: a candidate pair whose probe reports "not deployed" is silently
dropped: the probing pass over a candidate list containing the pair produces
the same outcome as the pass over the list with the pair removed, so this
outcome never causes resolution to fail. -/
theorem probeAll_notDeployed_dropped
    (c : Collab) (l1 l2 : List (String × String)) (s e : String)
    (m : List (String × SvcEnv)) (names : List String)
    (hinit : c.initDescriber e s = none)
    (hnd : c.getServiceArn e s = .stackNotExists) :
    (probeAll c (l1 ++ (s, e) :: l2) m names).1
      = (probeAll c (l1 ++ l2) m names).1 := by
  induction l1 generalizing m names with
  | nil => simp only [List.nil_append, probeAll, hinit, hnd]
  | cons q rest ih =>
    obtain ⟨svc, env⟩ := q
    simp only [List.cons_append, probeAll]
    cases c.initDescriber env svc with
    | some cause => rfl
    | none =>
      cases c.getServiceArn env svc with
      | err cause => rfl
      | stackNotExists => exact ih m names
      | ok =>
        exact ih (mapInsert m (SvcEnv.display ⟨svc, env⟩) ⟨svc, env⟩)
          (names ++ [SvcEnv.display ⟨svc, env⟩])

/-- C6: with a non-empty pre-validated project, service and environment all
supplied, resolution performs zero catalog listing calls and exactly one
deployment probe (provided the stack describer for the pair initializes,
which is the only step the spec's single probe call subsumes). -/
theorem ask_all_supplied_one_probe
    (c : Collab) (a s e : String)
    (ha : a ≠ "") (hs : s ≠ "") (he : e ≠ "")
    (hinit : c.initDescriber e s = none) :
    (ask c a s e).2.filter Event.isListing = [] ∧
    ((ask c a s e).2.filter Event.isProbe).length = 1 := by
  cases harn : c.getServiceArn e s with
  | ok =>
    simp [ask, askProject, askAppEnvName, getAppNames, getEnvNames, crossPairs,
      probeAll, postProbe, ha, hs, he, hinit, harn, List.filter_cons,
      Event.isListing, Event.isProbe]
  | stackNotExists =>
    simp [ask, askProject, askAppEnvName, getAppNames, getEnvNames, crossPairs,
      probeAll, postProbe, ha, hs, he, hinit, harn, List.filter_cons,
      Event.isListing, Event.isProbe]
  | err cause =>
    simp [ask, askProject, askAppEnvName, getAppNames, getEnvNames, crossPairs,
      probeAll, postProbe, ha, hs, he, hinit, harn, List.filter_cons,
      Event.isListing, Event.isProbe]

/-- C7: during project resolution, a chooser error is surfaced as the
project-selection error wrapping the chooser's own error kind, so user
cancellation and any other chooser failure reach the caller as
distinguishable kinds. -/
theorem askProject_chooser_error_kinds
    (c : Collab) (projNames : List String) (ce : ChooserErr)
    (hlist : c.listApplications = .ok projNames)
    (hne : projNames.isEmpty = false)
    (hsel : c.selectOne projNames = .error ce) :
    (askProject c "").1 = .error (.selectProjectErr ce) ∧
    ∀ cause, CliErr.selectProjectErr ChooserErr.aborted
        ≠ CliErr.selectProjectErr (ChooserErr.failed cause) := by
  refine ⟨?_, by intro cause; simp⟩
  simp [askProject, hlist, hne, hsel]

/-- C8: for every candidate set the probing pass builds, every display key in
the ordered key sequence has exactly one entry in the key-to-pair mapping,
and the mapping contains no duplicate pairs. -/
theorem candidateSet_keys_unique
    (c : Collab) (pairs : List (String × String))
    (m : List (String × SvcEnv)) (names : List String)
    (h : (probeAll c pairs [] []).1 = .ok (m, names)) :
    (∀ k ∈ names, (m.filter fun kv => kv.1 == k).length = 1) ∧
    (m.map Prod.snd).Nodup := by
  rcases hp : probeAll c pairs [] [] with ⟨r, tr⟩
  rw [hp] at h
  obtain ⟨hnd, hdk, hns, _⟩ :=
    probeAll_ok_inv c pairs [] [] m names tr candInv_nil
      (by rw [hp, show r = Except.ok (m, names) from h])
  exact ⟨fun k hk => filter_key_length m k hnd (hns k hk),
    values_nodup m hnd hdk⟩

theorem buildMap_keys (l : List SvcEnv) :
    ∀ (m : List (String × SvcEnv)) (k : String),
      k ∈ (buildMap m l).map Prod.fst →
      k ∈ m.map Prod.fst ∨ k ∈ l.map SvcEnv.display := by
  induction l with
  | nil => intro m k h; exact Or.inl h
  | cons p rest ih =>
    intro m k h
    rcases ih (mapInsert m p.display p) k h with h1 | h1
    · rw [mapInsert_keys] at h1
      by_cases hk : p.display ∈ m.map Prod.fst
      · rw [if_pos hk] at h1; exact Or.inl h1
      · rw [if_neg hk] at h1
        rcases List.mem_append.mp h1 with h2 | h2
        · exact Or.inl h2
        · simp at h2; exact Or.inr (by simp [h2])
    · exact Or.inr (by simp [h1])

/-- C9: if the Interactive Chooser returns a string that is not among the
offered choices, the engine does not fail: the map lookup yields the zero
value and both the resolved service and environment names are the empty
string. -/
theorem askAppEnvName_unknown_choice_yields_empty
    (c : Collab) (project svcName envName : String)
    (apps envs : List String) (t1 t2 : List Event) (k : String)
    (h1 : getAppNames c project svcName = (.ok apps, t1))
    (h2 : getEnvNames c project envName = (.ok envs, t2))
    (hclean : ∀ q ∈ crossPairs apps envs, cleanPair c q)
    (hmany : 1 < (deployedOf c (crossPairs apps envs)).length)
    (hsel : c.selectOne
        ((deployedOf c (crossPairs apps envs)).map SvcEnv.display) = .ok k)
    (hnot : k ∉ (deployedOf c (crossPairs apps envs)).map SvcEnv.display) :
    (askAppEnvName c project svcName envName).1 = .ok ("", "") := by
  rw [askAppEnvName_clean c project svcName envName apps envs t1 t2 h1 h2 hclean]
  rw [postProbe_many c project _ _ _ (by simpa using hmany)]
  rw [hsel]
  have habs : mapGet (buildMap [] (deployedOf c (crossPairs apps envs))) k
      = ⟨"", ""⟩ := by
    apply mapGet_absent
    intro kv hkv hcontra
    apply hnot
    rcases buildMap_keys (deployedOf c (crossPairs apps envs)) [] kv.1
        (List.mem_map_of_mem Prod.fst hkv) with h3 | h3
    · simp at h3
    · rw [← hcontra]; exact h3
  simp [habs]

/-- C10: `DisableColorBasedOnEnvVar` leaves both toggles unchanged for any
COLOR value that lowercases to neither "true" nor "false"; when the variable
is unset it sets `core.DisableColor` to the current `color.NoColor` and
leaves `color.NoColor` unchanged; and the "true"/"false" match is
case-insensitive, disabling color for every value lowercasing to "false" and
enabling it for every value lowercasing to "true". -/
theorem disableColor_envVar_cases :
    (∀ v s, strToLower v ≠ "true" → strToLower v ≠ "false" →
      disableColorBasedOnEnvVar (some v) s = s) ∧
    (∀ s, disableColorBasedOnEnvVar none s =
      { coreDisableColor := s.colorNoColor, colorNoColor := s.colorNoColor }) ∧
    (∀ v s, strToLower v = "false" →
      disableColorBasedOnEnvVar (some v) s =
        { coreDisableColor := true, colorNoColor := true }) ∧
    (∀ v s, strToLower v = "true" →
      disableColorBasedOnEnvVar (some v) s =
        { coreDisableColor := false, colorNoColor := false }) := by
  refine ⟨?_, ?_, ?_, ?_⟩
  · intro v s ht hf
    simp [disableColorBasedOnEnvVar, ht, hf]
  · intro s
    rfl
  · intro v s hf
    simp [disableColorBasedOnEnvVar, hf]
  · intro v s ht
    have hf : strToLower v ≠ "false" := by rw [ht]; decide
    simp [disableColorBasedOnEnvVar, ht, hf]

/-- A demonstration catalog: project "coffee", services "api" and "web",
environments "test" and "prod", with (api, test) and (web, prod) deployed and
a chooser that picks the first choice. -/
def demoCollab : Collab :=
  { listApplications := .ok ["coffee"]
  , listServices := .ok ["api", "web"]
  , listEnvironments := .ok ["test", "prod"]
  , initDescriber := fun _ _ => none
  , getServiceArn := fun env svc =>
      if svc = "api" ∧ env = "test" then .ok
      else if svc = "web" ∧ env = "prod" then .ok
      else .stackNotExists
  , selectOne := fun choices => .ok (choices.headD "") }

/-- Like `demoCollab`, but the probe hard-fails on (api, prod). -/
def errCollab : Collab :=
  { demoCollab with
    getServiceArn := fun env svc =>
      if svc = "api" ∧ env = "test" then .ok
      else if svc = "api" ∧ env = "prod" then .err "boom"
      else .stackNotExists }

/-- Like `demoCollab`, but nothing is deployed. -/
def noneCollab : Collab :=
  { demoCollab with getServiceArn := fun _ _ => .stackNotExists }

/-- Like `demoCollab`, but the chooser always answers a string that is not
among the choices. -/
def bogusCollab : Collab :=
  { demoCollab with selectOne := fun _ => .ok "bogus" }

/-- Like `demoCollab`, but the chooser reports user cancellation. -/
def abortCollab : Collab :=
  { demoCollab with selectOne := fun _ => .error .aborted }

/-- Witness for C1: with services = [api] supplied, environments = [test,
prod] listed and only (api, test) deployed, resolution auto-selects it. -/
theorem askAppEnvName_single_deployed_auto_selects_witness :
    deployedOf demoCollab (crossPairs ["api"] ["test", "prod"])
        = [⟨"api", "test"⟩] ∧
    (askAppEnvName demoCollab "coffee" "api" "").1 = .ok ("api", "test") ∧
    (askAppEnvName demoCollab "coffee" "api" "").2.filter Event.isChooser = [] ∧
    Event.logAutoSelect (SvcEnv.display ⟨"api", "test"⟩)
        ∈ (askAppEnvName demoCollab "coffee" "api" "").2 :=
  ⟨by decide,
   (askAppEnvName_single_deployed_auto_selects demoCollab "coffee" "api" ""
      ["api"] ["test", "prod"] [] [Event.callListEnvironments] ⟨"api", "test"⟩
      rfl rfl (by decide) (by decide)).1,
   (askAppEnvName_single_deployed_auto_selects demoCollab "coffee" "api" ""
      ["api"] ["test", "prod"] [] [Event.callListEnvironments] ⟨"api", "test"⟩
      rfl rfl (by decide) (by decide)).2.1,
   (askAppEnvName_single_deployed_auto_selects demoCollab "coffee" "api" ""
      ["api"] ["test", "prod"] [] [Event.callListEnvironments] ⟨"api", "test"⟩
      rfl rfl (by decide) (by decide)).2.2⟩

/-- Witness for C2: the probe hard-fails on (api, prod), the second pair of
the cross product; resolution aborts there and only the first two probes are
ever issued. -/
theorem askAppEnvName_probe_error_aborts_witness :
    errCollab.getServiceArn "prod" "api" = .err "boom" ∧
    (askAppEnvName errCollab "coffee" "" "").1
        = .error (.probeFailed "api" "prod" "boom") ∧
    (askAppEnvName errCollab "coffee" "" "").2.filter Event.isProbe
        = ([("api", "test")].map fun q => Event.callProbe q.2 q.1)
          ++ [Event.callProbe "prod" "api"] :=
  ⟨by decide,
   (askAppEnvName_probe_error_aborts errCollab "coffee" "" ""
      ["api", "web"] ["test", "prod"]
      [Event.callListServices] [Event.callListEnvironments]
      [("api", "test")] [("web", "test"), ("web", "prod")] "api" "prod" "boom"
      rfl rfl (by decide) (by decide) rfl (by decide)).1,
   (askAppEnvName_probe_error_aborts errCollab "coffee" "" ""
      ["api", "web"] ["test", "prod"]
      [Event.callListServices] [Event.callListEnvironments]
      [("api", "test")] [("web", "test"), ("web", "prod")] "api" "prod" "boom"
      rfl rfl (by decide) (by decide) rfl (by decide)).2⟩

/-- Witness for C3: two deployed pairs, so the chooser is invoked exactly once
with their two display keys in order. -/
theorem askAppEnvName_many_invokes_chooser_once_witness :
    1 < (deployedOf demoCollab (crossPairs ["api", "web"] ["test", "prod"])).length ∧
    (askAppEnvName demoCollab "coffee" "" "").2.filter Event.isChooser
      = [Event.callChooser
          ((deployedOf demoCollab
              (crossPairs ["api", "web"] ["test", "prod"])).map SvcEnv.display)] ∧
    ((deployedOf demoCollab
        (crossPairs ["api", "web"] ["test", "prod"])).map SvcEnv.display).length
      = (deployedOf demoCollab (crossPairs ["api", "web"] ["test", "prod"])).length :=
  ⟨by decide,
   (askAppEnvName_many_invokes_chooser_once demoCollab "coffee" "" ""
      ["api", "web"] ["test", "prod"]
      [Event.callListServices] [Event.callListEnvironments]
      rfl rfl (by decide) (by decide)).1,
   (askAppEnvName_many_invokes_chooser_once demoCollab "coffee" "" ""
      ["api", "web"] ["test", "prod"]
      [Event.callListServices] [Event.callListEnvironments]
      rfl rfl (by decide) (by decide)).2⟩

/-- Witness for C4: nothing is deployed, so resolution fails with the
no-deployed-pairs error and the chooser is never invoked. -/
theorem askAppEnvName_none_deployed_fails_witness :
    deployedOf noneCollab (crossPairs ["api", "web"] ["test", "prod"]) = [] ∧
    (askAppEnvName noneCollab "coffee" "" "").1
        = .error (.noDeployedApps "coffee") ∧
    (askAppEnvName noneCollab "coffee" "" "").2.filter Event.isChooser = [] :=
  ⟨by decide,
   (askAppEnvName_none_deployed_fails noneCollab "coffee" "" ""
      ["api", "web"] ["test", "prod"]
      [Event.callListServices] [Event.callListEnvironments]
      rfl rfl (by decide) (by decide)).1,
   (askAppEnvName_none_deployed_fails noneCollab "coffee" "" ""
      ["api", "web"] ["test", "prod"]
      [Event.callListServices] [Event.callListEnvironments]
      rfl rfl (by decide) (by decide)).2⟩

/-- Witness for C5: (api, prod) probes "not deployed" and dropping it from
the candidate list leaves the probing outcome unchanged. -/
theorem probeAll_notDeployed_dropped_witness :
    demoCollab.getServiceArn "prod" "api" = .stackNotExists ∧
    (probeAll demoCollab ([("api", "test")] ++ ("api", "prod") :: [("web", "prod")])
        [] []).1
      = (probeAll demoCollab ([("api", "test")] ++ [("web", "prod")]) [] []).1 :=
  ⟨by decide,
   probeAll_notDeployed_dropped demoCollab [("api", "test")] [("web", "prod")]
     "api" "prod" [] [] rfl (by decide)⟩

/-- Witness for C6: all three identifiers supplied; the trace has no listing
call and exactly one probe. -/
theorem ask_all_supplied_one_probe_witness :
    ("coffee" : String) ≠ "" ∧
    (ask demoCollab "coffee" "api" "test").2.filter Event.isListing = [] ∧
    ((ask demoCollab "coffee" "api" "test").2.filter Event.isProbe).length = 1 :=
  ⟨by decide,
   (ask_all_supplied_one_probe demoCollab "coffee" "api" "test"
      (by decide) (by decide) (by decide) rfl).1,
   (ask_all_supplied_one_probe demoCollab "coffee" "api" "test"
      (by decide) (by decide) (by decide) rfl).2⟩

/-- Witness for C7: the chooser cancels during project resolution and the
engine fails with the project-selection error wrapping the cancellation. -/
theorem askProject_chooser_error_kinds_witness :
    abortCollab.selectOne ["coffee"] = .error ChooserErr.aborted ∧
    (askProject abortCollab "").1
        = .error (.selectProjectErr ChooserErr.aborted) :=
  ⟨rfl,
   (askProject_chooser_error_kinds abortCollab ["coffee"] ChooserErr.aborted
      rfl rfl rfl).1⟩

/-- Witness for C8: the candidate set built for the demo catalog has one
entry per key in the sequence and no duplicate pairs. -/
theorem candidateSet_keys_unique_witness :
    (probeAll demoCollab (crossPairs ["api", "web"] ["test", "prod"]) [] []).1
      = .ok ([(SvcEnv.display ⟨"api", "test"⟩, ⟨"api", "test"⟩),
              (SvcEnv.display ⟨"web", "prod"⟩, ⟨"web", "prod"⟩)],
             [SvcEnv.display ⟨"api", "test"⟩, SvcEnv.display ⟨"web", "prod"⟩]) ∧
    ([(SvcEnv.display ⟨"api", "test"⟩, (⟨"api", "test"⟩ : SvcEnv)),
      (SvcEnv.display ⟨"web", "prod"⟩, ⟨"web", "prod"⟩)].filter
        fun kv => kv.1 == SvcEnv.display ⟨"api", "test"⟩).length = 1 ∧
    ([(SvcEnv.display ⟨"api", "test"⟩, (⟨"api", "test"⟩ : SvcEnv)),
      (SvcEnv.display ⟨"web", "prod"⟩, ⟨"web", "prod"⟩)].map Prod.snd).Nodup :=
  ⟨rfl,
   (candidateSet_keys_unique demoCollab (crossPairs ["api", "web"] ["test", "prod"])
      [(SvcEnv.display ⟨"api", "test"⟩, ⟨"api", "test"⟩),
       (SvcEnv.display ⟨"web", "prod"⟩, ⟨"web", "prod"⟩)]
      [SvcEnv.display ⟨"api", "test"⟩, SvcEnv.display ⟨"web", "prod"⟩]
      rfl).1 (SvcEnv.display ⟨"api", "test"⟩) (by decide),
   (candidateSet_keys_unique demoCollab (crossPairs ["api", "web"] ["test", "prod"])
      [(SvcEnv.display ⟨"api", "test"⟩, ⟨"api", "test"⟩),
       (SvcEnv.display ⟨"web", "prod"⟩, ⟨"web", "prod"⟩)]
      [SvcEnv.display ⟨"api", "test"⟩, SvcEnv.display ⟨"web", "prod"⟩]
      rfl).2⟩

/-- Witness for C9: the chooser answers "bogus", which is not among the
offered keys, and resolution succeeds with both names empty. -/
theorem askAppEnvName_unknown_choice_yields_empty_witness :
    ("bogus" ∉ (deployedOf bogusCollab
        (crossPairs ["api", "web"] ["test", "prod"])).map SvcEnv.display) ∧
    (askAppEnvName bogusCollab "coffee" "" "").1 = .ok ("", "") :=
  ⟨by decide,
   askAppEnvName_unknown_choice_yields_empty bogusCollab "coffee" "" ""
     ["api", "web"] ["test", "prod"]
     [Event.callListServices] [Event.callListEnvironments] "bogus"
     rfl rfl (by decide) (by decide) rfl (by decide)⟩

/-- Witness for C10: a non-boolean value changes nothing, an unset variable
copies the current `color.NoColor`, and mixed-case "FaLsE" and "TRUE" are
matched case-insensitively. -/
theorem disableColor_envVar_cases_witness :
    (strToLower "PURPLE" ≠ "true" ∧ strToLower "PURPLE" ≠ "false") ∧
    disableColorBasedOnEnvVar (some "PURPLE")
        { coreDisableColor := false, colorNoColor := true }
      = { coreDisableColor := false, colorNoColor := true } ∧
    disableColorBasedOnEnvVar none
        { coreDisableColor := false, colorNoColor := true }
      = { coreDisableColor := true, colorNoColor := true } ∧
    disableColorBasedOnEnvVar (some "FaLsE")
        { coreDisableColor := false, colorNoColor := false }
      = { coreDisableColor := true, colorNoColor := true } ∧
    disableColorBasedOnEnvVar (some "TRUE")
        { coreDisableColor := true, colorNoColor := true }
      = { coreDisableColor := false, colorNoColor := false } :=
  ⟨⟨by decide, by decide⟩,
   disableColor_envVar_cases.1 "PURPLE" ⟨false, true⟩ (by decide) (by decide),
   disableColor_envVar_cases.2.1 ⟨false, true⟩,
   disableColor_envVar_cases.2.2.1 "FaLsE" ⟨false, false⟩ (by decide),
   disableColor_envVar_cases.2.2.2 "TRUE" ⟨true, true⟩ (by decide)⟩
